import Mathlib

/-!
Shallow embedding of the `Dynamics365` gateway class (`src/index.ts`) of the
mcp-dynamics365-server repository, together with theorems settling the frozen
claims about its specification.

Modelling conventions:
* JavaScript runtime values that flow through the gateway (decoded JSON
  bodies, `accountData` arguments) are modelled by the inductive `Json`,
  with `Json.jsUndefined` standing for JavaScript `undefined`.
* Every `throw new Error(msg)` in the source is modelled as an exceptional
  result carrying a `JsError`, a structure holding exactly the message
  string — the source never throws anything richer than a plain `Error`.
* The two external collaborators (the MSAL credential library and the
  `fetch` transport) are modelled by a `World` of oracles, indexed by how
  many calls to that collaborator have happened so far; a `Trace` records
  the number of MSAL invocations and the list of HTTP requests issued, so
  that "zero network calls" and "one fresh token per call" are provable
  statements about traces.
* JavaScript truthiness (`!accountId`, `body ? ... : ...`,
  `response && response.accessToken`, `data && data.UserId`) is modelled
  by `jsTruthy` / `optTruthy` with the usual JS rules (empty string, 0,
  null, undefined and false are falsy).
-/

namespace D365

/-- JavaScript-style JSON runtime values; `jsUndefined` models `undefined`. -/
inductive Json where
  | jsUndefined : Json
  | null : Json
  | jbool : Bool → Json
  | jnum : Int → Json
  | jstr : String → Json
  | jarr : List Json → Json
  | jobj : List (String × Json) → Json

/-- JavaScript truthiness of a value. -/
def jsTruthy : Json → Bool
  | .jsUndefined => false
  | .null => false
  | .jbool b => b
  | .jnum n => decide (n ≠ 0)
  | .jstr s => decide (s ≠ "")
  | .jarr _ => true
  | .jobj _ => true

/-- Truthiness of an optional argument (`none` models an absent/`undefined`
argument, as in `createAccount(undefined)`). -/
def optTruthy : Option Json → Bool
  | none => false
  | some j => jsTruthy j

/-- JavaScript property read `j.k`: `undefined` on a missing key or on a
non-object receiver. -/
def getField (j : Json) (k : String) : Json :=
  match j with
  | .jobj fields =>
    match fields.lookup k with
    | some v => v
    | none => .jsUndefined
  | _ => .jsUndefined

/-- Overwrite-or-append on an association list, keeping the original key
position on overwrite (JavaScript object assignment semantics). -/
def setPair : List (String × Json) → String → Json → List (String × Json)
  | [], k, v => [(k, v)]
  | (k', v') :: rest, k, v =>
    if k' = k then (k', v) :: rest else (k', v') :: setPair rest k v

/-- JavaScript property write `j.k = v` (a no-op on non-objects, which the
source never does on the guarded paths). -/
def setField (j : Json) (k : String) (v : Json) : Json :=
  match j with
  | .jobj fields => .jobj (setPair fields k v)
  | _ => j

mutual
/-- String interpolation of a value into a template literal, as in
`systemusers(${data.UserId})`. -/
def jsToString : Json → String
  | .jsUndefined => "undefined"
  | .null => "null"
  | .jbool true => "true"
  | .jbool false => "false"
  | .jnum n => toString n
  | .jstr s => s
  | .jarr xs => jsToStringList xs
  | .jobj _ => "[object Object]"

/-- Array `toString`: comma-joined element strings. -/
def jsToStringList : List Json → String
  | [] => ""
  | [x] => jsToString x
  | x :: xs => jsToString x ++ "," ++ jsToStringList xs
end

mutual
/-- `JSON.stringify` restricted to the value shapes the gateway can send. -/
def stringifyJson : Json → String
  | .jsUndefined => "null"
  | .null => "null"
  | .jbool true => "true"
  | .jbool false => "false"
  | .jnum n => toString n
  | .jstr s => "\"" ++ s ++ "\""
  | .jarr xs => "[" ++ stringifyList xs ++ "]"
  | .jobj fields => "\x7b" ++ stringifyFields fields ++ "\x7d"

/-- Comma-joined serialization of array elements. -/
def stringifyList : List Json → String
  | [] => ""
  | [x] => stringifyJson x
  | x :: xs => stringifyJson x ++ "," ++ stringifyList xs

/-- Comma-joined serialization of object fields. -/
def stringifyFields : List (String × Json) → String
  | [] => ""
  | [(k, v)] => "\"" ++ k ++ "\":" ++ stringifyJson v
  | (k, v) :: fs => "\"" ++ k ++ "\":" ++ stringifyJson v ++ "," ++ stringifyFields fs
end

/-- The source only ever throws `new Error(message)`: an error value is
nothing but its message string. -/
structure JsError where
  message : String
deriving DecidableEq

/-- One HTTP request handed to `fetch`. -/
structure HttpRequest where
  url : String
  method : String
  headers : List (String × String)
  body : Option String

/-- External-call trace of a run: how many MSAL token acquisitions have
happened, and every HTTP request issued, in order. -/
structure Trace where
  msalCalls : Nat
  fetchCalls : List HttpRequest

/-- Result of `acquireTokenByClientCredential` when the promise resolves:
the response object, whose `accessToken` may be absent/null (`none`) or any
string. -/
structure MsalResponse where
  accessToken : Option String

/-- Outcome of one MSAL token acquisition: resolved (possibly with a `null`
response) or rejected with an error message. -/
inductive MsalOutcome where
  | resolved : Option MsalResponse → MsalOutcome
  | rejected : String → MsalOutcome

/-- An HTTP response as the source consumes it: `ok` flag, status code, the
body text (read in the failure branch) and the outcome of `response.json()`
(which can itself fail, e.g. on malformed JSON). -/
structure FetchResponse where
  ok : Bool
  status : Nat
  textBody : String
  jsonBody : Except String Json

/-- Outcome of one `fetch`: resolved with a response, or rejected with a
network-error message. -/
inductive FetchOutcome where
  | resolved : FetchResponse → FetchOutcome
  | rejected : String → FetchOutcome

/-- The external world: the outcome of the n-th MSAL acquisition, and of the
n-th `fetch` given the request issued. -/
structure World where
  msal : Nat → MsalOutcome
  fetch : Nat → HttpRequest → FetchOutcome

/-- The gateway's immutable identity configuration (constructor fields). -/
structure Dynamics365 where
  clientId : String
  clientSecret : String
  tenantId : String
  d365Url : String

/-- Message head prepended by the `catch` block of `authenticate`. -/
def authErrHead : String := "Failed to authenticate with Dynamics 365: "

/-- Message head prepended by the `catch` block of `makeApiRequest`. -/
def apiErrHead : String := "Failed to make API request: "

/-- Message of the error thrown when the MSAL response is null or carries no
usable token. -/
def nullTokenMsg : String := "Token acquisition failed: response is null or invalid."

/-- `Dynamics365.authenticate`: acquire a client-credential token.  A
rejected acquisition, a null response, and a missing/empty `accessToken`
(string falsiness of `response.accessToken`) all surface as an error whose
message is wrapped by the catch block with `authErrHead`.  The scope string
built from the base URL's origin is consumed only by the MSAL library and
is not inspected by any claim, so the oracle abstracts over it. -/
def authenticate (w : World) (_d : Dynamics365) (t : Trace) :
    Except JsError String × Trace :=
  let t' : Trace := { t with msalCalls := t.msalCalls + 1 }
  match w.msal t.msalCalls with
  | .rejected msg => (.error ⟨authErrHead ++ msg⟩, t')
  | .resolved none => (.error ⟨authErrHead ++ nullTokenMsg⟩, t')
  | .resolved (some r) =>
    match r.accessToken with
    | some tok =>
      if tok ≠ "" then (.ok tok, t')
      else (.error ⟨authErrHead ++ nullTokenMsg⟩, t')
    | none => (.error ⟨authErrHead ++ nullTokenMsg⟩, t')

/-- `endsWith` as the source uses it: suffix test on the character data. -/
def jsEndsWith (s suf : String) : Bool :=
  suf.data.isSuffixOf s.data

/-- URL construction of `makeApiRequest`: append a slash to the base URL
unless it already ends in one, then concatenate the endpoint. -/
def buildUrl (d365Url endpoint : String) : String :=
  let baseUrl := if jsEndsWith d365Url "/" then d365Url else d365Url ++ "/"
  baseUrl ++ endpoint

/-- The five standard headers attached to every request. -/
def standardHeaders (token : String) : List (String × String) :=
  [("Authorization", "Bearer " ++ token),
   ("Accept", "application/json"),
   ("Content-Type", "application/json"),
   ("OData-MaxVersion", "4.0"),
   ("OData-Version", "4.0")]

/-- Overwrite-or-append on a header list (JavaScript object key assignment). -/
def setHeader : List (String × String) → String → String → List (String × String)
  | [], k, v => [(k, v)]
  | (k', v') :: rest, k, v =>
    if k' = k then (k', v) :: rest else (k', v') :: setHeader rest k v

/-- Object-spread merge `\x7b ...base, ...extra \x7d`: each extra binding
overwrites any standard one of the same name. -/
def mergeHeaders (base extra : List (String × String)) : List (String × String) :=
  extra.foldl (fun acc kv => setHeader acc kv.1 kv.2) base

/-- Final value of a header name in a header list. -/
def getHeader (hs : List (String × String)) (k : String) : Option String :=
  hs.lookup k

/-- `body ? JSON.stringify(body) : undefined`. -/
def serializeBody : Option Json → Option String
  | none => none
  | some j => if jsTruthy j then some (stringifyJson j) else none

/-- The request value `makeApiRequest` hands to `fetch`. -/
def mkRequest (d : Dynamics365) (token endpoint method : String)
    (body : Option Json) (additionalHeaders : List (String × String)) : HttpRequest :=
  { url := buildUrl d.d365Url endpoint
    method := method
    headers := mergeHeaders (standardHeaders token) additionalHeaders
    body := serializeBody body }

/-- `Dynamics365.makeApiRequest`: authenticate (outside the try block, so
authentication failures propagate unwrapped), build the URL and headers,
issue the fetch, and classify the outcome exactly as the source's
try/catch does: a non-ok status throws the status/body message which the
catch re-wraps with `apiErrHead`; a rejected fetch or a failing
`response.json()` is wrapped the same way. -/
def makeApiRequest (w : World) (d : Dynamics365) (endpoint method : String)
    (body : Option Json) (additionalHeaders : List (String × String))
    (t : Trace) : Except JsError Json × Trace :=
  match authenticate w d t with
  | (.error e, t1) => (.error e, t1)
  | (.ok token, t1) =>
    let req := mkRequest d token endpoint method body additionalHeaders
    let t2 : Trace := { t1 with fetchCalls := t1.fetchCalls ++ [req] }
    match w.fetch t1.fetchCalls.length req with
    | .rejected msg => (.error ⟨apiErrHead ++ msg⟩, t2)
    | .resolved r =>
      if r.ok then
        match r.jsonBody with
        | .ok j => (.ok j, t2)
        | .error msg => (.error ⟨apiErrHead ++ msg⟩, t2)
      else
        (.error ⟨apiErrHead ++ "API request failed with status: " ++ toString r.status
            ++ ", message: " ++ r.textBody⟩, t2)

/-- `Dynamics365.makeWhoAmIRequest`: GET WhoAmI; when the decoded response
and its `UserId` are truthy, GET the systemusers record with the `Prefer`
annotation header and merge `domainname`/`fullname` into the result as
`UserName`/`FullName`; failures of either call propagate uncaught. -/
def makeWhoAmIRequest (w : World) (d : Dynamics365) (t : Trace) :
    Except JsError Json × Trace :=
  match makeApiRequest w d "api/data/v9.2/WhoAmI" "GET" none [] t with
  | (.error e, t1) => (.error e, t1)
  | (.ok data, t1) =>
    if jsTruthy data && jsTruthy (getField data "UserId") then
      match makeApiRequest w d
          ("api/data/v9.2/systemusers(" ++ jsToString (getField data "UserId") ++ ")")
          "GET" none [("Prefer", "odata.include-annotations=\"*\"")] t1 with
      | (.error e, t2) => (.error e, t2)
      | (.ok userDetails, t2) =>
        let d1 := setField data "UserName" (getField userDetails "domainname")
        let d2 := setField d1 "FullName" (getField userDetails "fullname")
        (.ok d2, t2)
    else
      (.ok data, t1)

/-- `Dynamics365.getAccounts`. -/
def getAccounts (w : World) (d : Dynamics365) (t : Trace) :
    Except JsError Json × Trace :=
  makeApiRequest w d "api/data/v9.2/accounts" "GET" none [] t

/-- `Dynamics365.getAssociatedContacts`: validate the account id (JS string
falsiness: empty string), then GET the contacts filter endpoint with the id
interpolated verbatim. -/
def getAssociatedContacts (w : World) (d : Dynamics365) (accountId : String)
    (t : Trace) : Except JsError Json × Trace :=
  if accountId = "" then
    (.error ⟨"Account ID is required to fetch contacts."⟩, t)
  else
    makeApiRequest w d
      ("api/data/v9.2/contacts?$filter=_parentcustomerid_value eq " ++ accountId)
      "GET" none [] t

/-- `Dynamics365.getAssociatedOpportunities`: validate the account id, then
GET the opportunities filter endpoint with the id interpolated verbatim. -/
def getAssociatedOpportunities (w : World) (d : Dynamics365) (accountId : String)
    (t : Trace) : Except JsError Json × Trace :=
  if accountId = "" then
    (.error ⟨"Account ID is required to fetch opportunities."⟩, t)
  else
    makeApiRequest w d
      ("api/data/v9.2/opportunities?$filter=_customerid_value eq " ++ accountId)
      "GET" none [] t

/-- `Dynamics365.createAccount`: validate that the account data is truthy,
then POST it. -/
def createAccount (w : World) (d : Dynamics365) (accountData : Option Json)
    (t : Trace) : Except JsError Json × Trace :=
  if optTruthy accountData = false then
    (.error ⟨"Account data is required to create an account."⟩, t)
  else
    makeApiRequest w d "api/data/v9.2/accounts" "POST" accountData [] t

/-- `Dynamics365.updateAccount`: validate the account id first, then the
account data, then PATCH the accounts(id) endpoint. -/
def updateAccount (w : World) (d : Dynamics365) (accountId : String)
    (accountData : Option Json) (t : Trace) : Except JsError Json × Trace :=
  if accountId = "" then
    (.error ⟨"Account ID is required to update an account."⟩, t)
  else if optTruthy accountData = false then
    (.error ⟨"Account data is required to update an account."⟩, t)
  else
    makeApiRequest w d ("api/data/v9.2/accounts(" ++ accountId ++ ")")
      "PATCH" accountData [] t

/-- The three failure kinds named by the specification. -/
inductive ErrorKind where
  | validation : ErrorKind
  | authentication : ErrorKind
  | apiRequest : ErrorKind
deriving DecidableEq

/-- Classification of a failure purely from its message text: character 10
of `authErrHead` is `a`, of `apiErrHead` is `m`, and of every validation
message it is neither. -/
def classifyMessage (s : String) : ErrorKind :=
  if (s.data.drop 10).head? = some 'a' then .authentication
  else if (s.data.drop 10).head? = some 'm' then .apiRequest
  else .validation

/-- A classifier of error values that reads nothing but the message text. -/
def FactorsThroughMessage (f : JsError → ErrorKind) : Prop :=
  ∃ g : String → ErrorKind, ∀ e : JsError, f e = g e.message

theorem classifyMessage_authErrHead (m : String) :
    classifyMessage (authErrHead ++ m) = ErrorKind.authentication := by
  have hdrop : ((authErrHead ++ m).data).drop 10 = authErrHead.data.drop 10 ++ m.data := by
    rw [String.data_append, List.drop_append_of_le_length (by decide)]
  have hpfx : authErrHead.data.drop 10 = 'a' :: "uthenticate with Dynamics 365: ".data := by
    decide
  unfold classifyMessage
  rw [hdrop, hpfx]
  simp

theorem classifyMessage_apiErrHead (m : String) :
    classifyMessage (apiErrHead ++ m) = ErrorKind.apiRequest := by
  have hdrop : ((apiErrHead ++ m).data).drop 10 = apiErrHead.data.drop 10 ++ m.data := by
    rw [String.data_append, List.drop_append_of_le_length (by decide)]
  have hpfx : apiErrHead.data.drop 10 = 'm' :: "ake API request: ".data := by
    decide
  unfold classifyMessage
  rw [hdrop, hpfx]
  simp

theorem authenticate_trace (w : World) (d : Dynamics365) (t : Trace) :
    (authenticate w d t).2 = { t with msalCalls := t.msalCalls + 1 } := by
  unfold authenticate
  split
  · rfl
  · rfl
  · split
    · split
      · rfl
      · rfl
    · rfl

/-- How the try/catch of `makeApiRequest` classifies a fetch outcome. -/
def fetchResult : FetchOutcome → Except JsError Json
  | .rejected msg => .error ⟨apiErrHead ++ msg⟩
  | .resolved r =>
    if r.ok then
      match r.jsonBody with
      | .ok j => .ok j
      | .error msg => .error ⟨apiErrHead ++ msg⟩
    else
      .error ⟨apiErrHead ++ "API request failed with status: " ++ toString r.status
          ++ ", message: " ++ r.textBody⟩

theorem makeApiRequest_authfailure (w : World) (d : Dynamics365)
    (ep mth : String) (b : Option Json) (ah : List (String × String))
    (t : Trace) (e : JsError) (h : (authenticate w d t).1 = .error e) :
    makeApiRequest w d ep mth b ah t =
      (.error e, { t with msalCalls := t.msalCalls + 1 }) := by
  have ht := authenticate_trace w d t
  rcases hA : authenticate w d t with ⟨res, t1⟩
  rw [hA] at h ht
  simp only at h ht
  subst h
  subst ht
  unfold makeApiRequest
  rw [hA]

theorem makeApiRequest_authok (w : World) (d : Dynamics365)
    (ep mth : String) (b : Option Json) (ah : List (String × String))
    (t : Trace) (tok : String) (h : (authenticate w d t).1 = .ok tok) :
    makeApiRequest w d ep mth b ah t =
      (fetchResult (w.fetch t.fetchCalls.length (mkRequest d tok ep mth b ah)),
       { msalCalls := t.msalCalls + 1,
         fetchCalls := t.fetchCalls ++ [mkRequest d tok ep mth b ah] }) := by
  have ht := authenticate_trace w d t
  rcases hA : authenticate w d t with ⟨res, t1⟩
  rw [hA] at h ht
  simp only at h ht
  subst h
  subst ht
  unfold makeApiRequest
  rw [hA]
  dsimp only
  rcases hf : w.fetch t.fetchCalls.length (mkRequest d tok ep mth b ah) with r | msg
  · unfold fetchResult
    by_cases ho : r.ok = true
    · rcases hj : r.jsonBody with j | m2 <;> simp [ho, hj]
    · simp [ho]
  · rfl

/-- The last (winning) binding of a key in a caller-supplied header list. -/
def lastVal : List (String × String) → String → Option String
  | [], _ => none
  | p :: rest, k =>
    match lastVal rest k with
    | some v => some v
    | none => if p.1 = k then some p.2 else none

theorem getHeader_setHeader_self (m : List (String × String)) (k v : String) :
    getHeader (setHeader m k v) k = some v := by
  induction m with
  | nil => simp [setHeader, getHeader, List.lookup]
  | cons p rest ih =>
    unfold setHeader
    by_cases h : p.1 = k
    · simp only [if_pos h, getHeader, List.lookup, beq_iff_eq.mpr h.symm]
    · simp only [if_neg h, getHeader, List.lookup,
        beq_false_of_ne fun a => h a.symm] at ih ⊢
      exact ih

theorem getHeader_setHeader_ne (m : List (String × String)) (k k' v : String)
    (h : k' ≠ k) : getHeader (setHeader m k v) k' = getHeader m k' := by
  induction m with
  | nil => simp [setHeader, getHeader, List.lookup, beq_false_of_ne h]
  | cons p rest ih =>
    unfold setHeader
    by_cases hp : p.1 = k
    · subst hp
      simp only [if_pos rfl, getHeader, List.lookup, beq_false_of_ne h]
    · simp only [if_neg hp, getHeader, List.lookup] at ih ⊢
      cases hkk : k' == p.1
      · exact ih
      · rfl

theorem lastVal_cons (p : String × String) (rest : List (String × String))
    (k : String) :
    lastVal (p :: rest) k =
      match lastVal rest k with
      | some v => some v
      | none => if p.1 = k then some p.2 else none := rfl

theorem getHeader_mergeHeaders (extra base : List (String × String)) (k : String) :
    getHeader (mergeHeaders base extra) k =
      match lastVal extra k with
      | some v => some v
      | none => getHeader base k := by
  induction extra generalizing base with
  | nil => rfl
  | cons p rest ih =>
    rw [show mergeHeaders base (p :: rest) = mergeHeaders (setHeader base p.1 p.2) rest from rfl]
    rw [ih (setHeader base p.1 p.2), lastVal_cons]
    rcases hr : lastVal rest k with _ | v
    · simp only
      by_cases h : p.1 = k
      · subst h
        simp [getHeader_setHeader_self]
      · simp [h, getHeader_setHeader_ne _ _ _ _ fun a => h a.symm]
    · simp only

theorem lookup_setPair_self (fs : List (String × Json)) (k : String) (v : Json) :
    (setPair fs k v).lookup k = some v := by
  induction fs with
  | nil => simp [setPair, List.lookup]
  | cons p rest ih =>
    unfold setPair
    by_cases h : p.1 = k
    · simp only [if_pos h, List.lookup, beq_iff_eq.mpr h.symm]
    · simp only [if_neg h, List.lookup, beq_false_of_ne fun a => h a.symm] at ih ⊢
      exact ih

theorem lookup_setPair_ne (fs : List (String × Json)) (k k' : String) (v : Json)
    (h : k' ≠ k) : (setPair fs k v).lookup k' = fs.lookup k' := by
  induction fs with
  | nil => simp [setPair, List.lookup, beq_false_of_ne h]
  | cons p rest ih =>
    unfold setPair
    by_cases hp : p.1 = k
    · subst hp
      simp only [if_pos rfl, List.lookup, beq_false_of_ne h]
    · simp only [if_neg hp, List.lookup] at ih ⊢
      cases hkk : k' == p.1
      · exact ih
      · rfl

theorem getField_setField_self (fs : List (String × Json)) (k : String) (v : Json) :
    getField (setField (.jobj fs) k v) k = v := by
  simp [setField, getField, lookup_setPair_self]

theorem getField_setField_ne (fs : List (String × Json)) (k k' : String) (v : Json)
    (h : k' ≠ k) : getField (setField (.jobj fs) k v) k' = getField (.jobj fs) k' := by
  simp [setField, getField, lookup_setPair_ne _ _ _ _ h]

theorem jobj_of_truthy_getField (j : Json) (k : String)
    (h : jsTruthy (getField j k) = true) : ∃ fs, j = Json.jobj fs := by
  cases j with
  | jobj fs => exact ⟨fs, rfl⟩
  | jsUndefined => simp [getField, jsTruthy] at h
  | null => simp [getField, jsTruthy] at h
  | jbool b => simp [getField, jsTruthy] at h
  | jnum n => simp [getField, jsTruthy] at h
  | jstr s => simp [getField, jsTruthy] at h
  | jarr xs => simp [getField, jsTruthy] at h

/-- Remove a single trailing slash, if any, from a character list. -/
def stripTrail (l : List Char) : List Char :=
  if l.getLast? = some '/' then l.dropLast else l

/-- The built URL has exactly one slash at the junction: it is the base with
any single trailing slash removed, then one slash, then the endpoint, with
no further slash on either side of the junction. -/
def oneSepB (base ep : String) : Bool :=
  decide ((buildUrl base ep).data = stripTrail base.data ++ '/' :: ep.data) &&
  decide ((stripTrail base.data).getLast? ≠ some '/') &&
  decide (ep.data.head? ≠ some '/')

/-- C6 (counterexample): the claim asserts exactly one separating slash for
every base URL, but a configured base URL that already ends in two slashes
keeps both of them: the code only appends a slash when the base does not
already end in one, and never collapses existing ones. -/
theorem c6_counterexample :
    oneSepB "https://org.crm.dynamics.com//" "api/data/v9.2/accounts" = false ∧
    buildUrl "https://org.crm.dynamics.com//" "api/data/v9.2/accounts" =
      "https://org.crm.dynamics.com//api/data/v9.2/accounts" := by
  constructor
  · decide
  · rfl

/-- C6 (amended): for every base URL that does not already end in a double
slash and every relative endpoint that does not begin with a slash, the
request URL built by the request primitive joins them with exactly one
separating slash, whether or not the base URL ends in a slash; and the URL
of the request actually issued by the primitive is exactly this joined
URL. -/
theorem c6_url_join_single_slash (base ep : String)
    (h1 : jsEndsWith base "//" = false) (h2 : ep.data.head? ≠ some '/') :
    oneSepB base ep = true ∧
    (∀ (w : World) (cid cs tid mth : String) (b : Option Json)
        (ah : List (String × String)) (t : Trace) (tok : String),
      (authenticate w ⟨cid, cs, tid, base⟩ t).1 = .ok tok →
      ∃ req, (makeApiRequest w ⟨cid, cs, tid, base⟩ ep mth b ah t).2.fetchCalls
          = t.fetchCalls ++ [req] ∧ req.url = buildUrl base ep) := by
  have hone : (buildUrl base ep).data = stripTrail base.data ++ '/' :: ep.data ∧
      (stripTrail base.data).getLast? ≠ some '/' := by
    by_cases hs : jsEndsWith base "/" = true
    · have hsfx : ("/" : String).data <:+ base.data :=
        List.isSuffixOf_iff_suffix.mp hs
      obtain ⟨l, hl⟩ := hsfx
      have hdata : base.data = l ++ ['/'] := by rw [← hl]
      have hlast : base.data.getLast? = some '/' := by
        rw [hdata]; exact List.getLast?_concat l
      have hstrip : stripTrail base.data = l := by
        rw [stripTrail, if_pos hlast, hdata, List.dropLast_concat]
      have hl_ne : l.getLast? ≠ some '/' := by
        intro hc
        obtain ⟨l', hl'⟩ := List.getLast?_eq_some_iff.mp hc
        have : jsEndsWith base "//" = true :=
          List.isSuffixOf_iff_suffix.mpr
            ⟨l', by rw [hdata, hl']; simp [List.append_assoc]⟩
        rw [h1] at this
        exact Bool.false_ne_true this
      refine ⟨?_, by rw [hstrip]; exact hl_ne⟩
      rw [hstrip]
      unfold buildUrl
      rw [if_pos hs, String.data_append, hdata]
      simp
    · have hlast : base.data.getLast? ≠ some '/' := by
        intro hc
        obtain ⟨l', hl'⟩ := List.getLast?_eq_some_iff.mp hc
        exact hs (List.isSuffixOf_iff_suffix.mpr ⟨l', by rw [hl']⟩)
      have hstrip : stripTrail base.data = base.data := by
        rw [stripTrail, if_neg hlast]
      refine ⟨?_, by rw [hstrip]; exact hlast⟩
      rw [hstrip]
      unfold buildUrl
      rw [if_neg hs, String.data_append, String.data_append]
      simp
  refine ⟨?_, ?_⟩
  · simp only [oneSepB, Bool.and_eq_true, decide_eq_true_eq]
    exact ⟨⟨hone.1, hone.2⟩, h2⟩
  · intro w cid cs tid mth b ah t tok hok
    exact ⟨mkRequest ⟨cid, cs, tid, base⟩ tok ep mth b ah,
      by rw [makeApiRequest_authok w _ ep mth b ah t tok hok], rfl⟩

/-- C6 (witness): the amended join property at the spec's endpoint, for a
base URL without and with a trailing slash. -/
theorem c6_witness :
    oneSepB "https://org.crm.dynamics.com" "api/data/v9.2/accounts" = true ∧
    oneSepB "https://org.crm.dynamics.com/" "api/data/v9.2/accounts" = true :=
  ⟨(c6_url_join_single_slash "https://org.crm.dynamics.com" "api/data/v9.2/accounts"
      (by decide) (by decide)).1,
   (c6_url_join_single_slash "https://org.crm.dynamics.com/" "api/data/v9.2/accounts"
      (by decide) (by decide)).1⟩

/-- Example identity configuration used by concrete witnesses. -/
def dEx : Dynamics365 :=
  ⟨"client-id", "client-secret", "tenant-id", "https://org.crm.dynamics.com"⟩

/-- Empty starting trace. -/
def t0 : Trace := ⟨0, []⟩

/-- A world whose credential acquisition always rejects. -/
def wAuthFail : World :=
  ⟨fun _ => .rejected "invalid_client", fun _ _ => .rejected "unreachable"⟩

/-- A world with a successful credential where every fetch resolves to HTTP
404 with body text not found. -/
def w404 : World :=
  ⟨fun _ => .resolved (some ⟨some "tok123"⟩),
   fun _ _ => .resolved ⟨false, 404, "not found", .error "SyntaxError"⟩⟩

/-- C2 (counterexample): `getAssociatedOpportunities("")` does fail with a
validation error before any network call, but its message is the full
sentence `Account ID is required to fetch opportunities.`, not the claimed
`Account ID is required`. -/
theorem c2_counterexample :
    (getAssociatedOpportunities wAuthFail dEx "" t0).1 =
      .error ⟨"Account ID is required to fetch opportunities."⟩ ∧
    ("Account ID is required to fetch opportunities." : String) ≠
      "Account ID is required" :=
  ⟨rfl, by decide⟩

/-- C2 (amended): for every empty accountId, `getAssociatedOpportunities`
fails with the validation message `Account ID is required to fetch
opportunities.`, and for every non-truthy accountData `createAccount` fails
with its validation message, in both cases returning the trace unchanged —
zero credential acquisitions and zero transport invocations — and both
messages classify as validation failures. -/
theorem c2_validation_before_transport (w : World) (d : Dynamics365) (t : Trace)
    (accountData : Option Json) (h : optTruthy accountData = false) :
    getAssociatedOpportunities w d "" t =
      (.error ⟨"Account ID is required to fetch opportunities."⟩, t) ∧
    createAccount w d accountData t =
      (.error ⟨"Account data is required to create an account."⟩, t) ∧
    classifyMessage "Account ID is required to fetch opportunities." = .validation ∧
    classifyMessage "Account data is required to create an account." = .validation := by
  refine ⟨rfl, ?_, by decide, by decide⟩
  unfold createAccount
  rw [if_pos h]

/-- C2 (witness): the amended validation behavior at a concrete world,
configuration, trace and missing account data. -/
theorem c2_witness :
    getAssociatedOpportunities wAuthFail dEx "" t0 =
      (.error ⟨"Account ID is required to fetch opportunities."⟩, t0) ∧
    createAccount wAuthFail dEx none t0 =
      (.error ⟨"Account data is required to create an account."⟩, t0) :=
  ⟨(c2_validation_before_transport wAuthFail dEx t0 none rfl).1,
   (c2_validation_before_transport wAuthFail dEx t0 none rfl).2.1⟩

/-- C8: `updateAccount` validates its two preconditions independently with
distinct messages, the account-id check first (an empty id wins for every
accountData), and both validation failures return the trace unchanged (no
credential acquisition, no network activity). -/
theorem c8_update_validation_order (w : World) (d : Dynamics365)
    (accountId : String) (accountData : Option Json) (t : Trace) :
    (accountId = "" →
      updateAccount w d accountId accountData t =
        (.error ⟨"Account ID is required to update an account."⟩, t)) ∧
    (accountId ≠ "" → optTruthy accountData = false →
      updateAccount w d accountId accountData t =
        (.error ⟨"Account data is required to update an account."⟩, t)) ∧
    ("Account ID is required to update an account." : String) ≠
      "Account data is required to update an account." := by
  refine ⟨?_, ?_, by decide⟩
  · intro h
    subst h
    rfl
  · intro h1 h2
    unfold updateAccount
    rw [if_neg h1, if_pos h2]

/-- C8 (witness): both validation failures of `updateAccount` at concrete
inputs: empty id (with data missing as well, showing the id check wins) and
non-empty id with missing data. -/
theorem c8_witness :
    updateAccount wAuthFail dEx "" none t0 =
      (.error ⟨"Account ID is required to update an account."⟩, t0) ∧
    updateAccount wAuthFail dEx "acc1" none t0 =
      (.error ⟨"Account data is required to update an account."⟩, t0) :=
  ⟨(c8_update_validation_order wAuthFail dEx "" none t0).1 rfl,
   (c8_update_validation_order wAuthFail dEx "acc1" none t0).2.1 (by decide) rfl⟩

theorem authenticate_rejected (w : World) (d : Dynamics365) (t : Trace)
    (msg : String) (h : w.msal t.msalCalls = .rejected msg) :
    authenticate w d t =
      (.error ⟨authErrHead ++ msg⟩, { t with msalCalls := t.msalCalls + 1 }) := by
  unfold authenticate
  rw [h]

theorem authenticate_no_token (w : World) (d : Dynamics365) (t : Trace)
    (r : Option MsalResponse) (h : w.msal t.msalCalls = .resolved r)
    (hr : r = none ∨ ∃ mr, r = some mr ∧
        (mr.accessToken = none ∨ mr.accessToken = some "")) :
    authenticate w d t =
      (.error ⟨authErrHead ++ nullTokenMsg⟩, { t with msalCalls := t.msalCalls + 1 }) := by
  unfold authenticate
  rw [h]
  rcases hr with rfl | ⟨mr, rfl, hmr | hmr⟩
  · rfl
  · dsimp only
    rw [hmr]
  · dsimp only
    rw [hmr]
    simp

/-- C3: every invocation of the request primitive performs exactly one fresh
token acquisition (the trace's MSAL count rises by one, no reuse); a
rejected acquisition fails the whole call with an authentication error
carrying the underlying cause's message and issues no HTTP request; a
resolved acquisition with no usable token (null response, missing or empty
`accessToken`) likewise fails before any HTTP request; and on success the
issued request's bearer token is exactly the one acquired in this call. -/
theorem c3_fresh_token_per_call (w : World) (d : Dynamics365) (ep mth : String)
    (b : Option Json) (ah : List (String × String)) (t : Trace) :
    ((makeApiRequest w d ep mth b ah t).2.msalCalls = t.msalCalls + 1) ∧
    (∀ msg, w.msal t.msalCalls = .rejected msg →
      makeApiRequest w d ep mth b ah t =
        (.error ⟨authErrHead ++ msg⟩, { t with msalCalls := t.msalCalls + 1 })) ∧
    (∀ r, w.msal t.msalCalls = .resolved r →
      (r = none ∨ ∃ mr, r = some mr ∧
          (mr.accessToken = none ∨ mr.accessToken = some "")) →
      makeApiRequest w d ep mth b ah t =
        (.error ⟨authErrHead ++ nullTokenMsg⟩, { t with msalCalls := t.msalCalls + 1 })) ∧
    (∀ tok, (authenticate w d t).1 = .ok tok → lastVal ah "Authorization" = none →
      ∃ req, (makeApiRequest w d ep mth b ah t).2.fetchCalls = t.fetchCalls ++ [req] ∧
        getHeader req.headers "Authorization" = some ("Bearer " ++ tok)) := by
  refine ⟨?_, ?_, ?_, ?_⟩
  · rcases hA : (authenticate w d t).1 with e | tok
    · rw [makeApiRequest_authfailure w d ep mth b ah t e hA]
    · rw [makeApiRequest_authok w d ep mth b ah t tok hA]
  · intro msg hm
    have h := authenticate_rejected w d t msg hm
    exact makeApiRequest_authfailure w d ep mth b ah t _ (by rw [h])
  · intro r hm hr
    have h := authenticate_no_token w d t r hm hr
    exact makeApiRequest_authfailure w d ep mth b ah t _ (by rw [h])
  · intro tok hok hnoauth
    refine ⟨mkRequest d tok ep mth b ah, ?_, ?_⟩
    · rw [makeApiRequest_authok w d ep mth b ah t tok hok]
    · show getHeader (mergeHeaders (standardHeaders tok) ah) "Authorization" = _
      rw [getHeader_mergeHeaders, hnoauth]
      rfl

/-- C3 (witness): with a rejecting credential provider, a concrete call
fails with the wrapped authentication message and issues no HTTP request;
with a succeeding one, the issued request bears the fresh token. -/
theorem c3_witness :
    makeApiRequest wAuthFail dEx "api/data/v9.2/accounts" "GET" none [] t0 =
      (.error ⟨"Failed to authenticate with Dynamics 365: invalid_client"⟩,
       { msalCalls := 1, fetchCalls := [] }) ∧
    ∃ req, (makeApiRequest w404 dEx "api/data/v9.2/accounts" "GET" none [] t0).2.fetchCalls
        = [req] ∧ getHeader req.headers "Authorization" = some "Bearer tok123" :=
  ⟨(c3_fresh_token_per_call wAuthFail dEx "api/data/v9.2/accounts" "GET" none [] t0).2.1
      "invalid_client" rfl,
   (c3_fresh_token_per_call w404 dEx "api/data/v9.2/accounts" "GET" none [] t0).2.2.2
      "tok123" rfl rfl⟩

/-- C4: with a successful credential, a fetch resolving to a non-success
status fails the call with an error whose message is the wrapped
status/body sentence — in particular it contains the status code's digits
and the raw body text; a rejected fetch or a failing JSON decode fails the
call with an error wrapping the underlying cause's message. -/
theorem c4_api_error_reporting (w : World) (d : Dynamics365) (ep mth : String)
    (b : Option Json) (ah : List (String × String)) (t : Trace) (tok : String)
    (hok : (authenticate w d t).1 = .ok tok) :
    (∀ r, (∀ q, w.fetch t.fetchCalls.length q = .resolved r) → r.ok = false →
      ∃ e, (makeApiRequest w d ep mth b ah t).1 = .error e ∧
        e.message = apiErrHead ++ "API request failed with status: "
          ++ toString r.status ++ ", message: " ++ r.textBody ∧
        (∃ l1 l2, e.message.data = l1 ++ (toString r.status).data ++ l2) ∧
        (∃ l3, e.message.data = l3 ++ r.textBody.data)) ∧
    (∀ msg, (∀ q, w.fetch t.fetchCalls.length q = .rejected msg) →
      (makeApiRequest w d ep mth b ah t).1 = .error ⟨apiErrHead ++ msg⟩) ∧
    (∀ r msg, (∀ q, w.fetch t.fetchCalls.length q = .resolved r) → r.ok = true →
      r.jsonBody = .error msg →
      (makeApiRequest w d ep mth b ah t).1 = .error ⟨apiErrHead ++ msg⟩) := by
  refine ⟨?_, ?_, ?_⟩
  · intro r hf hro
    refine ⟨⟨apiErrHead ++ "API request failed with status: "
      ++ toString r.status ++ ", message: " ++ r.textBody⟩, ?_, rfl, ?_, ?_⟩
    · rw [makeApiRequest_authok w d ep mth b ah t tok hok, hf]
      unfold fetchResult
      dsimp only
      rw [hro]
      rfl
    · refine ⟨(apiErrHead ++ "API request failed with status: ").data,
        (", message: " ++ r.textBody).data, ?_⟩
      simp [String.data_append, List.append_assoc]
    · refine ⟨(apiErrHead ++ "API request failed with status: "
        ++ toString r.status ++ ", message: ").data, ?_⟩
      simp [String.data_append, List.append_assoc]
  · intro msg hf
    rw [makeApiRequest_authok w d ep mth b ah t tok hok, hf]
    rfl
  · intro r msg hf hro hj
    rw [makeApiRequest_authok w d ep mth b ah t tok hok, hf]
    unfold fetchResult
    dsimp only
    rw [hro, hj]
    rfl

/-- C4 (witness): the spec's example — credential ok, transport returns
HTTP 404 with body text not found — at concrete inputs: the message
contains the digits 404 and the body text. -/
theorem c4_witness :
    ∃ e, (makeApiRequest w404 dEx "api/data/v9.2/accounts" "GET" none [] t0).1 =
        .error e ∧
      e.message = "Failed to make API request: API request failed with status: 404, message: not found" ∧
      (∃ l1 l2, e.message.data = l1 ++ ("404".data) ++ l2) ∧
      (∃ l3, e.message.data = l3 ++ ("not found".data)) := by
  obtain ⟨e, h1, h2, h3, h4⟩ :=
    (c4_api_error_reporting w404 dEx "api/data/v9.2/accounts" "GET" none [] t0
      "tok123" rfl).1 ⟨false, 404, "not found", .error "SyntaxError"⟩ (fun _ => rfl) rfl
  exact ⟨e, h1, h2, h3, h4⟩

/-- C7: with a successful credential, the single issued request carries the
five standard headers — bearer authorization with the acquired token,
Accept and Content-Type `application/json`, and the two OData 4.0 version
headers — unless the caller supplied a header of the same name, in which
case the caller's (last) value wins; every caller-supplied header is
present with its value. -/
theorem c7_standard_headers (w : World) (d : Dynamics365) (ep mth : String)
    (b : Option Json) (ah : List (String × String)) (t : Trace) (tok : String)
    (hok : (authenticate w d t).1 = .ok tok) :
    ∃ req, (makeApiRequest w d ep mth b ah t).2.fetchCalls = t.fetchCalls ++ [req] ∧
      (lastVal ah "Authorization" = none →
        getHeader req.headers "Authorization" = some ("Bearer " ++ tok)) ∧
      (lastVal ah "Accept" = none →
        getHeader req.headers "Accept" = some "application/json") ∧
      (lastVal ah "Content-Type" = none →
        getHeader req.headers "Content-Type" = some "application/json") ∧
      (lastVal ah "OData-MaxVersion" = none →
        getHeader req.headers "OData-MaxVersion" = some "4.0") ∧
      (lastVal ah "OData-Version" = none →
        getHeader req.headers "OData-Version" = some "4.0") ∧
      (∀ k v, lastVal ah k = some v → getHeader req.headers k = some v) := by
  refine ⟨mkRequest d tok ep mth b ah,
    by rw [makeApiRequest_authok w d ep mth b ah t tok hok], ?_, ?_, ?_, ?_, ?_, ?_⟩
  · intro h
    show getHeader (mergeHeaders (standardHeaders tok) ah) _ = _
    rw [getHeader_mergeHeaders, h]
    rfl
  · intro h
    show getHeader (mergeHeaders (standardHeaders tok) ah) _ = _
    rw [getHeader_mergeHeaders, h]
    rfl
  · intro h
    show getHeader (mergeHeaders (standardHeaders tok) ah) _ = _
    rw [getHeader_mergeHeaders, h]
    rfl
  · intro h
    show getHeader (mergeHeaders (standardHeaders tok) ah) _ = _
    rw [getHeader_mergeHeaders, h]
    rfl
  · intro h
    show getHeader (mergeHeaders (standardHeaders tok) ah) _ = _
    rw [getHeader_mergeHeaders, h]
    rfl
  · intro k v h
    show getHeader (mergeHeaders (standardHeaders tok) ah) _ = _
    rw [getHeader_mergeHeaders, h]

/-- C7 (witness): a concrete call with one caller-supplied header that
overrides `Accept`: the request carries the four untouched standard headers
and the caller's value for `Accept`. -/
theorem c7_witness :
    ∃ req, (makeApiRequest w404 dEx "api/data/v9.2/accounts" "GET" none
        [("Accept", "text/html")] t0).2.fetchCalls = [req] ∧
      getHeader req.headers "Authorization" = some "Bearer tok123" ∧
      getHeader req.headers "Accept" = some "text/html" ∧
      getHeader req.headers "Content-Type" = some "application/json" ∧
      getHeader req.headers "OData-MaxVersion" = some "4.0" ∧
      getHeader req.headers "OData-Version" = some "4.0" := by
  obtain ⟨req, htr, ha, _, hc, hm, hv, hover⟩ :=
    c7_standard_headers w404 dEx "api/data/v9.2/accounts" "GET" none
      [("Accept", "text/html")] t0 "tok123" rfl
  exact ⟨req, htr, ha rfl, hover "Accept" "text/html" rfl, hc rfl, hm rfl, hv rfl⟩

theorem buildUrl_data_of_append (base pfx s : String) :
    (buildUrl base (pfx ++ s)).data = (buildUrl base pfx).data ++ s.data := by
  simp only [buildUrl]
  rw [String.data_append, String.data_append, String.data_append, List.append_assoc]

/-- A world with a successful credential where every fetch resolves OK with
a decoded empty OData collection. -/
def wOk : World :=
  ⟨fun _ => .resolved (some ⟨some "tok9"⟩),
   fun _ _ => .resolved ⟨true, 200, "",
     .ok (.jobj [("value", .jarr [])])⟩⟩

/-- C9: for every non-empty accountId, with a successful credential and a
successful transport, `getAssociatedOpportunities` issues exactly one
request — a GET whose URL is the base joined with
`api/data/v9.2/opportunities?$filter=_customerid_value eq <accountId>`,
the accountId appearing verbatim (unescaped) at the end of the URL — and
returns the decoded response body. -/
theorem c9_opportunities_request (w : World) (d : Dynamics365)
    (accountId : String) (t : Trace) (tok : String) (r : FetchResponse) (j : Json)
    (hid : accountId ≠ "") (hok : (authenticate w d t).1 = .ok tok)
    (hf : ∀ q, w.fetch t.fetchCalls.length q = .resolved r)
    (hro : r.ok = true) (hj : r.jsonBody = .ok j) :
    ∃ req, getAssociatedOpportunities w d accountId t =
        (.ok j, { msalCalls := t.msalCalls + 1, fetchCalls := t.fetchCalls ++ [req] }) ∧
      req.method = "GET" ∧
      req.url = buildUrl d.d365Url
        ("api/data/v9.2/opportunities?$filter=_customerid_value eq " ++ accountId) ∧
      ∃ pre, req.url.data = pre ++ accountId.data := by
  refine ⟨mkRequest d tok
      ("api/data/v9.2/opportunities?$filter=_customerid_value eq " ++ accountId)
      "GET" none [], ?_, rfl, rfl,
    (buildUrl d.d365Url "api/data/v9.2/opportunities?$filter=_customerid_value eq ").data,
    buildUrl_data_of_append d.d365Url _ accountId⟩
  unfold getAssociatedOpportunities
  rw [if_neg hid, makeApiRequest_authok w d _ "GET" none [] t tok hok, hf]
  unfold fetchResult
  dsimp only
  rw [hro, hj]
  rfl

/-- C9 (witness): the opportunities request at a concrete account id,
credential and transport. -/
theorem c9_witness :
    ∃ req, getAssociatedOpportunities wOk dEx "acc1" t0 =
        (.ok (.jobj [("value", .jarr [])]),
         { msalCalls := 1, fetchCalls := [req] }) ∧
      req.method = "GET" ∧
      req.url = "https://org.crm.dynamics.com/api/data/v9.2/opportunities?$filter=_customerid_value eq acc1" := by
  obtain ⟨req, hreq, hm, hu, _⟩ :=
    c9_opportunities_request wOk dEx "acc1" t0 "tok9"
      ⟨true, 200, "", .ok (.jobj [("value", .jarr [])])⟩ (.jobj [("value", .jarr [])])
      (by decide) rfl (fun _ => rfl) rfl rfl
  exact ⟨req, hreq, hm, by rw [hu]; rfl⟩

/-- C10: the gateway's sixth typed operation `getAssociatedContacts`: for
every empty accountId it fails with the validation message `Account ID is
required to fetch contacts.` with the trace unchanged (no credential or
network activity); for every non-empty accountId, with a successful
credential and transport, it issues exactly one GET to the base joined with
`api/data/v9.2/contacts?$filter=_parentcustomerid_value eq <accountId>`
(the accountId verbatim at the end of the URL) and returns the decoded
response body. -/
theorem c10_contacts_operation (w : World) (d : Dynamics365)
    (accountId : String) (t : Trace) :
    (accountId = "" →
      getAssociatedContacts w d accountId t =
        (.error ⟨"Account ID is required to fetch contacts."⟩, t)) ∧
    (∀ tok r j, accountId ≠ "" → (authenticate w d t).1 = .ok tok →
      (∀ q, w.fetch t.fetchCalls.length q = .resolved r) →
      r.ok = true → r.jsonBody = .ok j →
      ∃ req, getAssociatedContacts w d accountId t =
          (.ok j, { msalCalls := t.msalCalls + 1, fetchCalls := t.fetchCalls ++ [req] }) ∧
        req.method = "GET" ∧
        req.url = buildUrl d.d365Url
          ("api/data/v9.2/contacts?$filter=_parentcustomerid_value eq " ++ accountId) ∧
        ∃ pre, req.url.data = pre ++ accountId.data) := by
  refine ⟨?_, ?_⟩
  · intro h
    subst h
    rfl
  · intro tok r j hid hok hf hro hj
    refine ⟨mkRequest d tok
        ("api/data/v9.2/contacts?$filter=_parentcustomerid_value eq " ++ accountId)
        "GET" none [], ?_, rfl, rfl,
      (buildUrl d.d365Url "api/data/v9.2/contacts?$filter=_parentcustomerid_value eq ").data,
      buildUrl_data_of_append d.d365Url _ accountId⟩
    unfold getAssociatedContacts
    rw [if_neg hid, makeApiRequest_authok w d _ "GET" none [] t tok hok, hf]
    unfold fetchResult
    dsimp only
    rw [hro, hj]
    rfl

/-- C10 (witness): both branches at concrete inputs — empty id fails with
the contacts validation message and no calls; a non-empty id issues the
contacts filter GET. -/
theorem c10_witness :
    getAssociatedContacts wOk dEx "" t0 =
      (.error ⟨"Account ID is required to fetch contacts."⟩, t0) ∧
    ∃ req, getAssociatedContacts wOk dEx "acc1" t0 =
        (.ok (.jobj [("value", .jarr [])]),
         { msalCalls := 1, fetchCalls := [req] }) ∧
      req.url = "https://org.crm.dynamics.com/api/data/v9.2/contacts?$filter=_parentcustomerid_value eq acc1" := by
  refine ⟨(c10_contacts_operation wOk dEx "" t0).1 rfl, ?_⟩
  obtain ⟨req, hreq, _, hu, _⟩ :=
    (c10_contacts_operation wOk dEx "acc1" t0).2 "tok9"
      ⟨true, 200, "", .ok (.jobj [("value", .jarr [])])⟩ (.jobj [("value", .jarr [])])
      (by decide) rfl (fun _ => rfl) rfl rfl
  exact ⟨req, hreq, by rw [hu]; rfl⟩

/-- C5: the get-current-user operation first issues GET
`api/data/v9.2/WhoAmI` (whose failure propagates); exactly when the decoded
response and its `UserId` are truthy it issues the second GET to
`api/data/v9.2/systemusers(<UserId>)` with the `Prefer:
odata.include-annotations="*"` header, whose failure propagates uncaught,
and on success returns the WhoAmI result with the lookup's `domainname`
merged in as `UserName` and `fullname` as `FullName`, the original `UserId`
untouched; when the response carries no truthy `UserId`, the first result
is returned as is with no second request. -/
theorem c5_whoami_flow (w : World) (d : Dynamics365) (t : Trace) :
    (∀ e t1, makeApiRequest w d "api/data/v9.2/WhoAmI" "GET" none [] t = (.error e, t1) →
      makeWhoAmIRequest w d t = (.error e, t1)) ∧
    (∀ data t1, makeApiRequest w d "api/data/v9.2/WhoAmI" "GET" none [] t = (.ok data, t1) →
      ((jsTruthy data && jsTruthy (getField data "UserId")) = false →
        makeWhoAmIRequest w d t = (.ok data, t1)) ∧
      ((jsTruthy data && jsTruthy (getField data "UserId")) = true →
        (∀ e t2, makeApiRequest w d
            ("api/data/v9.2/systemusers(" ++ jsToString (getField data "UserId") ++ ")")
            "GET" none [("Prefer", "odata.include-annotations=\"*\"")] t1 = (.error e, t2) →
          makeWhoAmIRequest w d t = (.error e, t2)) ∧
        (∀ details t2, makeApiRequest w d
            ("api/data/v9.2/systemusers(" ++ jsToString (getField data "UserId") ++ ")")
            "GET" none [("Prefer", "odata.include-annotations=\"*\"")] t1 = (.ok details, t2) →
          ∃ res, makeWhoAmIRequest w d t = (.ok res, t2) ∧
            getField res "UserName" = getField details "domainname" ∧
            getField res "FullName" = getField details "fullname" ∧
            getField res "UserId" = getField data "UserId"))) := by
  refine ⟨?_, ?_⟩
  · intro e t1 h1
    unfold makeWhoAmIRequest
    rw [h1]
  · intro data t1 h1
    refine ⟨?_, ?_⟩
    · intro hb
      unfold makeWhoAmIRequest
      rw [h1]
      dsimp only
      rw [if_neg (by simp [hb])]
    · intro hb
      refine ⟨?_, ?_⟩
      · intro e t2 h2
        unfold makeWhoAmIRequest
        rw [h1]
        dsimp only
        rw [if_pos hb, h2]
      · intro details t2 h2
        obtain ⟨fs, rfl⟩ :=
          jobj_of_truthy_getField data "UserId"
            (by simp only [Bool.and_eq_true] at hb; exact hb.2)
        have hs1 : setField (Json.jobj fs) "UserName" (getField details "domainname") =
            Json.jobj (setPair fs "UserName" (getField details "domainname")) := rfl
        refine ⟨setField (setField (.jobj fs) "UserName" (getField details "domainname"))
            "FullName" (getField details "fullname"), ?_, ?_, ?_, ?_⟩
        · unfold makeWhoAmIRequest
          rw [h1]
          dsimp only
          rw [if_pos hb, h2]
        · rw [hs1, getField_setField_ne _ _ _ _ (by decide)]
          exact getField_setField_self fs "UserName" (getField details "domainname")
        · rw [hs1]
          exact getField_setField_self _ "FullName" (getField details "fullname")
        · rw [hs1, getField_setField_ne _ _ _ _ (by decide)]
          exact getField_setField_ne fs "UserName" "UserId" _ (by decide)

/-- The WhoAmI response of the spec's example. -/
def whoAmIJson : Json :=
  .jobj [("UserId", .jstr "u1"), ("BusinessUnitId", .jstr "b1"),
         ("OrganizationId", .jstr "o1")]

/-- The systemusers lookup of the spec's example. -/
def userDetailsJson : Json :=
  .jobj [("domainname", .jstr "jdoe"), ("fullname", .jstr "Jane Doe")]

/-- A world replaying the spec's WhoAmI example: credential ok, first fetch
returns the WhoAmI body, second fetch the systemusers body. -/
def wWho : World :=
  ⟨fun _ => .resolved (some ⟨some "tok"⟩),
   fun n _ => if n = 0 then .resolved ⟨true, 200, "", .ok whoAmIJson⟩
              else .resolved ⟨true, 200, "", .ok userDetailsJson⟩⟩

/-- C5 (witness): on the spec's example data, `makeWhoAmIRequest` returns a
merged object with `UserId` u1, `UserName` jdoe and `FullName` Jane Doe,
after exactly two requests. -/
theorem c5_witness :
    ∃ res t2, makeWhoAmIRequest wWho dEx t0 = (.ok res, t2) ∧
      getField res "UserId" = .jstr "u1" ∧
      getField res "UserName" = .jstr "jdoe" ∧
      getField res "FullName" = .jstr "Jane Doe" ∧
      t2.fetchCalls.length = 2 := by
  obtain ⟨res, hres, hun, hfn, hid⟩ :=
    (((c5_whoami_flow wWho dEx t0).2 whoAmIJson
        { msalCalls := 1, fetchCalls := [mkRequest dEx "tok" "api/data/v9.2/WhoAmI" "GET" none []] }
        rfl).2 (by decide)).2 userDetailsJson
      { msalCalls := 2, fetchCalls :=
          [mkRequest dEx "tok" "api/data/v9.2/WhoAmI" "GET" none [],
           mkRequest dEx "tok"
             ("api/data/v9.2/systemusers(" ++ jsToString (getField whoAmIJson "UserId") ++ ")")
             "GET" none [("Prefer", "odata.include-annotations=\"*\"")]] }
      rfl
  exact ⟨res, _, hres, hid.trans rfl, hun.trans rfl, hfn.trans rfl, rfl⟩

theorem authenticate_error_message (w : World) (d : Dynamics365) (t : Trace)
    (e : JsError) (h : (authenticate w d t).1 = .error e) :
    ∃ m, e.message = authErrHead ++ m := by
  unfold authenticate at h
  rcases hm : w.msal t.msalCalls with r | msg
  · rcases r with _ | mr
    · rw [hm] at h
      dsimp only at h
      injection h with h'
      exact ⟨nullTokenMsg, by rw [← h']⟩
    · rw [hm] at h
      dsimp only at h
      rcases ha : mr.accessToken with _ | tok
      · rw [ha] at h
        dsimp only at h
        injection h with h'
        exact ⟨nullTokenMsg, by rw [← h']⟩
      · rw [ha] at h
        dsimp only at h
        by_cases ht : tok ≠ ""
        · rw [if_pos ht] at h
          exact absurd h (by simp)
        · rw [if_neg ht] at h
          injection h with h'
          exact ⟨nullTokenMsg, by rw [← h']⟩
  · rw [hm] at h
    dsimp only at h
    injection h with h'
    exact ⟨msg, by rw [← h']⟩

theorem fetchResult_error_message (o : FetchOutcome) (e : JsError)
    (h : fetchResult o = .error e) : ∃ m, e.message = apiErrHead ++ m := by
  rcases o with r | msg
  · unfold fetchResult at h
    dsimp only at h
    by_cases ho : r.ok = true
    · rw [if_pos ho] at h
      rcases hj : r.jsonBody with m | j
      · rw [hj] at h
        dsimp only at h
        injection h with h'
        exact ⟨m, by rw [← h']⟩
      · rw [hj] at h
        dsimp only at h
        exact absurd h (by simp)
    · rw [if_neg ho] at h
      injection h with h'
      refine ⟨"API request failed with status: " ++ toString r.status
        ++ ", message: " ++ r.textBody, ?_⟩
      rw [← h']
      simp [String.append_assoc]
  · unfold fetchResult at h
    injection h with h'
    exact ⟨msg, by rw [← h']⟩

/-- C1 (counterexample): the failure kinds are not distinguishable other
than by message text: every failure the gateway raises is a plain `Error`
value holding nothing but a message string, so every classifier of error
values necessarily factors through the message text — there is no
classifier that separates the concrete authentication failure from the
concrete HTTP-404 failure while not being a function of the text alone. -/
theorem c1_counterexample :
    (makeApiRequest wAuthFail dEx "api/data/v9.2/accounts" "GET" none [] t0).1 =
      .error ⟨"Failed to authenticate with Dynamics 365: invalid_client"⟩ ∧
    (makeApiRequest w404 dEx "api/data/v9.2/accounts" "GET" none [] t0).1 =
      .error ⟨"Failed to make API request: API request failed with status: 404, message: not found"⟩ ∧
    ¬ ∃ f : JsError → ErrorKind,
        (f ⟨"Failed to authenticate with Dynamics 365: invalid_client"⟩ =
            ErrorKind.authentication ∧
         f ⟨"Failed to make API request: API request failed with status: 404, message: not found"⟩ =
            ErrorKind.apiRequest) ∧
        ¬ FactorsThroughMessage f := by
  refine ⟨rfl, rfl, ?_⟩
  rintro ⟨f, -, hnf⟩
  exact hnf ⟨fun s => f ⟨s⟩, fun e => rfl⟩

/-- C1 (amended): the failure kinds are mutually distinguishable by the
caller, but only through message text: for every invocation of the request
primitive that fails, the text classifier assigns `authentication` exactly
when the failure arose during token acquisition and `apiRequest` when it
arose from the HTTP status, transport or decode — and this classifier is a
function of the message text alone, which is the only information an error
value carries. -/
theorem c1_errors_distinguishable_by_text (w : World) (d : Dynamics365)
    (ep mth : String) (b : Option Json) (ah : List (String × String)) (t : Trace)
    (e : JsError) (h : (makeApiRequest w d ep mth b ah t).1 = .error e) :
    (∀ e2, (authenticate w d t).1 = .error e2 →
        classifyMessage e.message = ErrorKind.authentication) ∧
    (∀ tok, (authenticate w d t).1 = .ok tok →
        classifyMessage e.message = ErrorKind.apiRequest) ∧
    FactorsThroughMessage (fun e2 => classifyMessage e2.message) := by
  refine ⟨?_, ?_, ⟨fun s => classifyMessage s, fun e2 => rfl⟩⟩
  · intro e2 h2
    rw [makeApiRequest_authfailure w d ep mth b ah t e2 h2] at h
    dsimp only at h
    injection h with h'
    obtain ⟨m, hm⟩ := authenticate_error_message w d t e2 h2
    rw [← h', hm]
    exact classifyMessage_authErrHead m
  · intro tok h2
    rw [makeApiRequest_authok w d ep mth b ah t tok h2] at h
    dsimp only at h
    obtain ⟨m, hm⟩ := fetchResult_error_message _ e h
    rw [hm]
    exact classifyMessage_apiErrHead m

/-- C1 (witness): the text classifier at the two concrete failures — an
auth rejection classifies as authentication, a 404 as apiRequest. -/
theorem c1_witness :
    classifyMessage "Failed to authenticate with Dynamics 365: invalid_client" =
      ErrorKind.authentication ∧
    classifyMessage "Failed to make API request: API request failed with status: 404, message: not found" =
      ErrorKind.apiRequest :=
  ⟨(c1_errors_distinguishable_by_text wAuthFail dEx "api/data/v9.2/accounts" "GET"
      none [] t0 ⟨"Failed to authenticate with Dynamics 365: invalid_client"⟩ rfl).1
      ⟨"Failed to authenticate with Dynamics 365: invalid_client"⟩ rfl,
   (c1_errors_distinguishable_by_text w404 dEx "api/data/v9.2/accounts" "GET"
      none [] t0 ⟨"Failed to make API request: API request failed with status: 404, message: not found"⟩ rfl).2.1
      "tok123" rfl⟩

end D365
